import Mathlib

/-!
Shallow embedding of `egui/src/containers/panel.rs` (the panel layout
allocator: `SidePanel`, `TopPanel`, `CentralPanel` and `clamp_to_range`).

Modelling conventions:
* `f32` values are modelled as exact rationals (`ℚ`); the IEEE value
  `f32::INFINITY`, which appears only as the default upper width bound,
  is modelled by the constant `f32_INFINITY`, a rational larger than
  every finite `f32` value, so that clamping against it behaves as
  clamping against `+∞` does for every representable finite coordinate.
* `egui::Id` (a stable hash of a caller seed, collision-free by intent)
  is modelled as a free term algebra over seeds, so distinct seeds give
  distinct identities and `id.with(child)` is injective.
* The external collaborators (input, style, memory store, frame state,
  output, foreground painter) are modelled as explicit fields of a `Ctx`
  record; `show` is a pure function `Ctx → Ctx × Rect`.
* The content-rendering collaborator (`Frame::show` + `Ui`), which is
  outside this file's source, is abstracted as a parameter
  `add_contents : Rect → Rect` mapping the panel rectangle handed to the
  content layer to the rectangle the content actually occupied
  (`inner_response.response.rect` in the source).
-/

namespace Egui

/-- A 2D position, as in `egui::Pos2`; coordinates modelled as `ℚ`. -/
structure Pos2 where
  x : ℚ
  y : ℚ
deriving DecidableEq, Repr

/-- A rectangle given by its min (left-top) and max (right-bottom) corners,
as in `egui::Rect`. -/
structure Rect where
  min : Pos2
  max : Pos2
deriving DecidableEq, Repr

/-- `Rect::width`: `max.x - min.x`. -/
def Rect.width (r : Rect) : ℚ := r.max.x - r.min.x

/-- `Rect::left`: `min.x`. -/
def Rect.left (r : Rect) : ℚ := r.min.x

/-- `Rect::right`: `max.x`. -/
def Rect.right (r : Rect) : ℚ := r.max.x

/-- `Rect::right_top`: `(max.x, min.y)` (y grows downwards). -/
def Rect.right_top (r : Rect) : Pos2 := ⟨r.max.x, r.min.y⟩

/-- `Rect::right_bottom`: `(max.x, max.y)`. -/
def Rect.right_bottom (r : Rect) : Pos2 := ⟨r.max.x, r.max.y⟩

/-- `rect.y_range().contains(&y)` : membership in the inclusive range
`min.y ..= max.y`. -/
def Rect.y_range_contains (r : Rect) (y : ℚ) : Bool :=
  decide (r.min.y ≤ y) && decide (y ≤ r.max.y)

/-- Stand-in for `f32::INFINITY`. The model computes in exact rationals, so
the infinite default upper width bound is represented by a rational that is
larger than every finite `f32` (whose maximum is below `2^128`); clamping
against it is then a no-op exactly as clamping against `+∞` is. -/
def f32_INFINITY : ℚ := 2 ^ 200

/-- `f32::clamp(self, min, max)` from the Rust standard library (for
`min ≤ max`, the only way it is called here): returns `min` if `self < min`,
`max` if `self > max`, else `self`. -/
def rust_clamp (x lo hi : ℚ) : ℚ :=
  if x < lo then lo else if x > hi then hi else x

/-- `clamp_to_range` (panel.rs:311-316): clamps `x` into the inclusive range,
normalizing the endpoints with `min`/`max` first. -/
def clamp_to_range (x : ℚ) (range : ℚ × ℚ) : ℚ :=
  rust_clamp x (min range.1 range.2) (max range.1 range.2)

/-- `egui::Id`: a stable identity derived from a caller seed, with
`Id::with` deriving a child identity. Modelled as a free term algebra
(an idealized collision-free hash). -/
inductive Id where
  | new (seed : String) : Id
  | with' (base : Id) (child : String) : Id
deriving DecidableEq, Repr

/-- `PanelState` (panel.rs:16-18): the record persisted per identity. -/
structure PanelState where
  rect : Rect
deriving DecidableEq, Repr

/-- A stroke used to paint the resize handle; its visual content is
irrelevant to the layout logic, so it is an opaque tag. -/
structure Stroke where
  tag : ℕ
deriving DecidableEq, Repr

/-- A line segment painted on the foreground painter
(`painter.line_segment([a, b], stroke)`). -/
structure Shape where
  a : Pos2
  b : Pos2
  stroke : Stroke
deriving DecidableEq, Repr

/-- `egui::CursorIcon` (only the variants this file touches, plus an
opaque remainder). -/
inductive CursorIcon where
  | default : CursorIcon
  | resizeHorizontal : CursorIcon
  | other (n : ℕ) : CursorIcon
deriving DecidableEq, Repr

/-- Pointer input state (`ctx.input().pointer`): optional latest position,
whether any button was pressed this frame, whether any button is down. -/
structure Pointer where
  latest_pos : Option Pos2
  any_pressed : Bool
  any_down : Bool
deriving DecidableEq, Repr

/-- Frame input (`ctx.input()`): the pointer and the full screen rect. -/
structure Input where
  pointer : Pointer
  screen_rect : Rect
deriving DecidableEq, Repr

/-- `ctx.memory().interaction`: the single shared drag-owner slot. -/
structure Interaction where
  drag_id : Option Id
deriving DecidableEq, Repr

/-- `ctx.memory()`: the identity-keyed persisted-state store (`id_data`)
and the interaction state. The store is modelled as a total lookup
function (the collaborators' `get`/`insert` interface). -/
structure Memory where
  id_data : Id → Option PanelState
  interaction : Interaction

/-- Style values consumed by this file (`ctx.style()`), supplied by the
out-of-scope theme system. -/
structure Style where
  resize_grab_radius_side : ℚ
  interact_size_y : ℚ
  active_bg_stroke : Stroke
  hovered_bg_stroke : Stroke
deriving DecidableEq, Repr

/-- `ctx.frame_state()`: the frame-wide allocation tracker holding the
current available rectangle. -/
structure FrameState where
  available_rect : Rect
deriving DecidableEq, Repr

/-- `ctx.output()`: the per-frame output this file touches (cursor icon). -/
structure Output where
  cursor_icon : CursorIcon
deriving DecidableEq, Repr

/-- The UI context: all collaborator state threaded through a `show` call.
`painter` is the list of shapes drawn on the foreground painter so far. -/
structure Ctx where
  input : Input
  style : Style
  memory : Memory
  frame_state : FrameState
  output : Output
  painter : List Shape

/-- `ctx.available_rect()`. -/
def Ctx.available_rect (ctx : Ctx) : Rect := ctx.frame_state.available_rect

/-- Modelled from the spec, §4.2 (the frame-wide allocation tracker lives
outside the shown source): `allocate_left_panel` moves the available
area's left edge to the reported rectangle's right edge. -/
def FrameState.allocate_left_panel (fs : FrameState) (rect : Rect) : FrameState :=
  { fs with available_rect :=
      { fs.available_rect with min :=
          { fs.available_rect.min with x := rect.max.x } } }

/-- Modelled from the spec, §4.2 (outside the shown source):
`allocate_top_panel` moves the available area's top edge down to the
reported rectangle's bottom edge. -/
def FrameState.allocate_top_panel (fs : FrameState) (rect : Rect) : FrameState :=
  { fs with available_rect :=
      { fs.available_rect with min :=
          { fs.available_rect.min with y := rect.max.y } } }

/-- Modelled from the spec, §4.2 (outside the shown source):
`allocate_central_panel` has no further effect on subsequent allocation
(central panels consume the remainder); kept for symmetry. -/
def FrameState.allocate_central_panel (fs : FrameState) (_rect : Rect) : FrameState :=
  fs

/-- Modelled from the spec, §6 (the keyed persistent store lives outside
the shown source): `id_data.insert(id, state)` overwrites the entry for
`id`, leaving every other entry unchanged. -/
def insertIdData (m : Id → Option PanelState) (i : Id) (s : PanelState) :
    Id → Option PanelState :=
  fun j => if j = i then some s else m j

/-- An optional frame (background/margins) override. Its effect is confined
to the content-rendering collaborator, so it is opaque here. -/
structure Frame where
  tag : ℕ
deriving DecidableEq, Repr

/-- `SidePanel` (panel.rs:35-41): builder for a left-docked resizable
panel. The width range endpoints are the `f32` endpoints of
`RangeInclusive<f32>`, modelled as rationals (see `f32_INFINITY`). -/
structure SidePanel where
  id : Id
  frame : Option Frame
  resizable : Bool
  default_width : ℚ
  width_range : ℚ × ℚ
deriving Repr

/-- `SidePanel::left` (panel.rs:45-53): defaults are resizable, width 200,
width range `96.0..=f32::INFINITY`. -/
def SidePanel.left (id_source : String) : SidePanel :=
  { id := Id.new id_source
    frame := none
    resizable := true
    default_width := 200
    width_range := (96, f32_INFINITY) }

/-- `SidePanel::resizable` (panel.rs:57-60). -/
def SidePanel.set_resizable (p : SidePanel) (resizable : Bool) : SidePanel :=
  { p with resizable := resizable }

/-- `SidePanel::default_width` (panel.rs:63-66). -/
def SidePanel.set_default_width (p : SidePanel) (default_width : ℚ) : SidePanel :=
  { p with default_width := default_width }

/-- `SidePanel::min_width` (panel.rs:68-71). -/
def SidePanel.min_width (p : SidePanel) (min_width : ℚ) : SidePanel :=
  { p with width_range := (min_width, p.width_range.2) }

/-- `SidePanel::max_width` (panel.rs:73-76). -/
def SidePanel.max_width (p : SidePanel) (max_width : ℚ) : SidePanel :=
  { p with width_range := (p.width_range.1, max_width) }

/-- `SidePanel::width_range` (panel.rs:79-82). -/
def SidePanel.set_width_range (p : SidePanel) (width_range : ℚ × ℚ) : SidePanel :=
  { p with width_range := width_range }

/-- The resize identity `id.with("__resize")` (panel.rs:118). -/
def SidePanel.resize_id (p : SidePanel) : Id := p.id.with' "__resize"

/-- Lines 105-113 of `SidePanel::show`: the panel rectangle before any
resize interaction. Start from the available rect; width is the persisted
rect's width if an entry for `id` exists, else the default width, clamped
to the width range; then `panel_rect.max.x = panel_rect.min.x + width`. -/
def SidePanel.baseRect (p : SidePanel) (ctx : Ctx) : Rect :=
  let panel_rect := ctx.available_rect
  let width :=
    match ctx.memory.id_data p.id with
    | some state => state.rect.width
    | none => p.default_width
  let width := clamp_to_range width p.width_range
  { panel_rect with max := { panel_rect.max with x := panel_rect.min.x + width } }

/-- Lines 115-122 of `SidePanel::show`: `resize_hover` — initialized false,
set only when the panel is resizable and a pointer position is available,
to: pointer.y within the rect's vertical span and pointer.x within the grab
radius of the right edge. -/
def SidePanel.resize_hover (p : SidePanel) (ctx : Ctx) : Bool :=
  if p.resizable then
    match ctx.input.pointer.latest_pos with
    | some pointer =>
        (p.baseRect ctx).y_range_contains pointer.y &&
          decide (|(p.baseRect ctx).right - pointer.x| ≤
            ctx.style.resize_grab_radius_side)
    | none => false
  else false

/-- Lines 124-129 of `SidePanel::show`: the drag-owner slot after the
conditional grab — on a fresh press (`any_pressed && any_down`) while
hovering, this panel's resize identity becomes the drag owner; otherwise
the slot is untouched. -/
def SidePanel.drag_id_after (p : SidePanel) (ctx : Ctx) : Option Id :=
  if p.resizable then
    match ctx.input.pointer.latest_pos with
    | some _ =>
        if ctx.input.pointer.any_pressed && ctx.input.pointer.any_down &&
            p.resize_hover ctx then
          some p.resize_id
        else
          ctx.memory.interaction.drag_id
    | none => ctx.memory.interaction.drag_id
  else ctx.memory.interaction.drag_id

/-- Line 130 of `SidePanel::show`: `is_resizing` — initialized false, set
(when resizable with a pointer available) to whether the drag-owner slot,
after the conditional grab, holds this panel's resize identity. -/
def SidePanel.is_resizing (p : SidePanel) (ctx : Ctx) : Bool :=
  if p.resizable then
    match ctx.input.pointer.latest_pos with
    | some _ => decide (p.drag_id_after ctx = some p.resize_id)
    | none => false
  else false

/-- Lines 105-135 of `SidePanel::show`: the final panel rectangle handed to
the content layer. While resizing, width becomes
`clamp_to_range (pointer.x - panel_rect.left()) width_range` and
`max.x` is updated to `min.x + width`. -/
def SidePanel.panelRect (p : SidePanel) (ctx : Ctx) : Rect :=
  let base := p.baseRect ctx
  if p.resizable then
    match ctx.input.pointer.latest_pos with
    | some pointer =>
        if p.is_resizing ctx then
          let width := clamp_to_range (pointer.x - base.left) p.width_range
          { base with max := { base.max with x := base.min.x + width } }
        else base
    | none => base
  else base

/-- Lines 137-139 of `SidePanel::show`: the cursor icon output — set to
`ResizeHorizontal` while hovering or resizing (only possible when resizable
with a pointer available), otherwise left unchanged. -/
def SidePanel.cursor_after (p : SidePanel) (ctx : Ctx) : CursorIcon :=
  if p.resize_hover ctx || p.is_resizing ctx then
    CursorIcon.resizeHorizontal
  else ctx.output.cursor_icon

/-- Lines 156-165 of `SidePanel::show`: while hovering or resizing, a line
segment along the consumed rect's right edge is drawn on the foreground
painter, with the active stroke while resizing and the hovered stroke
otherwise. -/
def SidePanel.painter_after (p : SidePanel) (ctx : Ctx) (rect : Rect) :
    List Shape :=
  if p.resize_hover ctx || p.is_resizing ctx then
    let stroke :=
      if p.is_resizing ctx then ctx.style.active_bg_stroke
      else ctx.style.hovered_bg_stroke
    ctx.painter ++ [⟨rect.right_top, rect.right_bottom, stroke⟩]
  else ctx.painter

/-- `SidePanel::show` (panel.rs:92-173). `add_contents` abstracts the
content-rendering collaborator: it maps the panel rectangle to the
rectangle the content actually occupied (`inner_response.response.rect`).
Returns the updated context and that consumed rectangle:
the consumed rect is reported to `allocate_left_panel` and persisted
under the panel's identity. -/
def SidePanel.show (p : SidePanel) (ctx : Ctx) (add_contents : Rect → Rect) :
    Ctx × Rect :=
  let rect := add_contents (p.panelRect ctx)
  ({ ctx with
      memory :=
        { id_data := insertIdData ctx.memory.id_data p.id ⟨rect⟩
          interaction := { drag_id := p.drag_id_after ctx } }
      output := { cursor_icon := p.cursor_after ctx }
      painter := p.painter_after ctx rect
      frame_state := ctx.frame_state.allocate_left_panel rect },
    rect)

/-- `TopPanel` (panel.rs:191-195): builder for a top-docked panel. -/
structure TopPanel where
  id : Id
  max_height : Option ℚ
  frame : Option Frame
deriving Repr

/-- `TopPanel::top` (panel.rs:201-207). -/
def TopPanel.top (id_source : String) : TopPanel :=
  { id := Id.new id_source
    max_height := none
    frame := none }

/-- Lines 227-230 of `TopPanel::show`: the panel rectangle — the available
rect with `max.y` lowered to at most `min.y + max_height`, where
`max_height` defaults to the style's `interact_size.y`. -/
def TopPanel.panelRect (t : TopPanel) (ctx : Ctx) : Rect :=
  let max_height := t.max_height.getD ctx.style.interact_size_y
  let panel_rect := ctx.available_rect
  { panel_rect with max :=
      { panel_rect.max with
          y := min panel_rect.max.y (panel_rect.min.y + max_height) } }

/-- `TopPanel::show` (panel.rs:217-248): computes the panel rect, delegates
to the content layer, and reports the consumed rect to
`allocate_top_panel`. No persisted state, no resize interaction. -/
def TopPanel.show (t : TopPanel) (ctx : Ctx) (add_contents : Rect → Rect) :
    Ctx × Rect :=
  let rect := add_contents (t.panelRect ctx)
  ({ ctx with frame_state := ctx.frame_state.allocate_top_panel rect }, rect)

/-- `CentralPanel` (panel.rs:267-271): builder for the remainder-filling
panel; configuration is an optional frame only. -/
structure CentralPanel where
  frame : Option Frame
deriving DecidableEq, Repr

/-- `CentralPanel::default()`. -/
def CentralPanel.default : CentralPanel := { frame := none }

/-- `CentralPanel::show` (panel.rs:282-308): the panel rectangle is the
full current available rect (the fixed identity `Id::new("central_panel")`
only names the content `Ui` and touches no persisted state); delegates to
the content layer and reports the consumed rect to
`allocate_central_panel`. -/
def CentralPanel.show (_c : CentralPanel) (ctx : Ctx)
    (add_contents : Rect → Rect) : Ctx × Rect :=
  let panel_rect := ctx.available_rect
  let rect := add_contents panel_rect
  ({ ctx with frame_state := ctx.frame_state.allocate_central_panel rect },
    rect)

/-! Concrete frame scenarios used by the end-to-end properties and as
evaluation points for the general theorems. The style values stand in for
the out-of-scope theme system (grab radius 4, standard interactive height
20, two distinct stroke tags). -/

/-- A concrete style: grab radius 4, interactive height 20. -/
def exStyle : Style := ⟨4, 20, ⟨1⟩, ⟨2⟩⟩

/-- A concrete 800×600 screen. -/
def exScreen : Rect := ⟨⟨0, 0⟩, ⟨800, 600⟩⟩

/-- An empty persisted store with no active drag. -/
def exMemory : Memory := ⟨fun _ => none, ⟨none⟩⟩

/-- A fresh frame over the 800×600 screen with no pointer this frame. -/
def exCtx : Ctx :=
  ⟨⟨⟨none, false, false⟩, exScreen⟩, exStyle, exMemory, ⟨exScreen⟩,
    ⟨CursorIcon.default⟩, []⟩

/-- A left side panel with the builder defaults (resizable, default width
200, width range `96..=f32::INFINITY`). -/
def exPanel : SidePanel := SidePanel.left "my_side_panel"

/-- A frame in mid-drag: the pointer is at `(px, 300)` with a button down
(no fresh press) and `exPanel`'s resize identity owns the drag slot. -/
def exCtxDrag (px : ℚ) : Ctx :=
  ⟨⟨⟨some ⟨px, 300⟩, false, true⟩, exScreen⟩, exStyle,
    ⟨fun _ => none, ⟨some exPanel.resize_id⟩⟩, ⟨exScreen⟩,
    ⟨CursorIcon.default⟩, []⟩

/-- A frame in which a button was just pressed (and is down) with the
pointer at `(200, 300)`, empty store, no drag owner yet. -/
def exCtxPress : Ctx :=
  ⟨⟨⟨some ⟨200, 300⟩, true, true⟩, exScreen⟩, exStyle, exMemory, ⟨exScreen⟩,
    ⟨CursorIcon.default⟩, []⟩

/-- Panel A: default left side panel. -/
def panelA : SidePanel := SidePanel.left "A"

/-- Panel B: a left side panel whose width range pins its width to 0, so
its right edge coincides with its left edge. -/
def panelB : SidePanel := (SidePanel.left "B").set_width_range (0, 0)

/-- Panel A shown in the press frame (content consumes its rectangle). -/
def stepA : Ctx × Rect := panelA.show exCtxPress (fun r => r)

/-- Panel B shown right after A in the same press frame. -/
def stepB : Ctx × Rect := panelB.show stepA.1 (fun r => r)

/-- `exPanel` shown on the fresh 800×600 frame. -/
def exSideStep : Ctx × Rect := exPanel.show exCtx (fun r => r)

/-- A central panel shown right after `exSideStep`. -/
def exCentralStep : Ctx × Rect :=
  CentralPanel.default.show exSideStep.1 (fun r => r)

/-- A top panel with explicit max height 30 (the source's `TopPanel` has
`max_height` as a field, defaulted to `None` by `TopPanel::top`). -/
def topPanel30 : TopPanel := { id := Id.new "top", max_height := some 30, frame := none }

/-- A second frame following `exSideStep`: the store carries over, the
pointer is present but idle — at (500, 300), far from any resize edge,
with no button pressed or down — and no drag is active. -/
def exCtx2 : Ctx :=
  { exSideStep.1 with
      input := ⟨⟨some ⟨500, 300⟩, false, false⟩, exScreen⟩
      frame_state := ⟨exScreen⟩ }

/-! Helper lemmas shared by the claim theorems. -/

/-- For a normalized range, `rust_clamp` lands inside the range. -/
theorem rust_clamp_mem (x lo hi : ℚ) (h : lo ≤ hi) :
    lo ≤ rust_clamp x lo hi ∧ rust_clamp x lo hi ≤ hi := by
  unfold rust_clamp
  split_ifs <;> constructor <;> linarith

/-- `rust_clamp` is the identity on values already inside the range. -/
theorem rust_clamp_eq_self (x lo hi : ℚ) (hlo : lo ≤ x) (hhi : x ≤ hi) :
    rust_clamp x lo hi = x := by
  unfold rust_clamp
  split_ifs <;> first | rfl | linarith

/-- `clamp_to_range` is the identity on values inside the normalized
range. -/
theorem clamp_to_range_eq_self (x : ℚ) (r : ℚ × ℚ)
    (hlo : min r.1 r.2 ≤ x) (hhi : x ≤ max r.1 r.2) :
    clamp_to_range x r = x :=
  rust_clamp_eq_self x _ _ hlo hhi

/-- When this panel's resize identity already owns the drag slot, the
conditional grab leaves it in place (the grab would re-install the same
identity). -/
theorem drag_id_after_of_owner (p : SidePanel) (ctx : Ctx)
    (hdrag : ctx.memory.interaction.drag_id = some p.resize_id) :
    p.drag_id_after ctx = some p.resize_id := by
  unfold SidePanel.drag_id_after
  split_ifs <;> cases hp : ctx.input.pointer.latest_pos <;> simp [hdrag]

/-- With a pointer available on a resizable panel whose resize identity
already owns the drag slot, `is_resizing` holds. -/
theorem is_resizing_of_owner (p : SidePanel) (ctx : Ctx) (pointer : Pos2)
    (hres : p.resizable = true)
    (hptr : ctx.input.pointer.latest_pos = some pointer)
    (hdrag : ctx.memory.interaction.drag_id = some p.resize_id) :
    p.is_resizing ctx = true := by
  unfold SidePanel.is_resizing
  rw [hres, hptr]
  simp [drag_id_after_of_owner p ctx hdrag]

/-- When not resizing, the final panel rectangle is the base rectangle. -/
theorem panelRect_of_not_resizing (p : SidePanel) (ctx : Ctx)
    (h : p.is_resizing ctx = false) :
    p.panelRect ctx = p.baseRect ctx := by
  unfold SidePanel.panelRect
  by_cases hres : p.resizable = true <;>
    cases hp : ctx.input.pointer.latest_pos <;>
      simp [hres, hp, h]

/-! The claim theorems. -/

/-- C4: `clamp_to_range` normalizes the range (swapping the endpoints when
they are inverted) and then clamps: for `lo ≤ hi` the result lies within
`[lo, hi]` and equals `x` when `x` is already in range, and on the
inverted range `(hi, lo)` it agrees with `(lo, hi)`. -/
theorem C4_clamp_to_range_normalizes (x lo hi : ℚ) (h : lo ≤ hi) :
    (lo ≤ clamp_to_range x (lo, hi) ∧ clamp_to_range x (lo, hi) ≤ hi ∧
      (lo ≤ x → x ≤ hi → clamp_to_range x (lo, hi) = x)) ∧
    clamp_to_range x (hi, lo) = clamp_to_range x (lo, hi) := by
  have hc : clamp_to_range x (lo, hi) = rust_clamp x lo hi := by
    simp only [clamp_to_range]
    rw [min_eq_left h, max_eq_right h]
  have hc2 : clamp_to_range x (hi, lo) = rust_clamp x lo hi := by
    simp only [clamp_to_range]
    rw [min_comm, max_comm, min_eq_left h, max_eq_right h]
  refine ⟨⟨?_, ?_, ?_⟩, ?_⟩
  · rw [hc]; exact (rust_clamp_mem x lo hi h).1
  · rw [hc]; exact (rust_clamp_mem x lo hi h).2
  · intro hlo hhi; rw [hc]; exact rust_clamp_eq_self x lo hi hlo hhi
  · rw [hc, hc2]

/-- Witness for C4 at `x = 3`, range `[0, 10]`. -/
theorem C4_witness :
    (0 : ℚ) ≤ 10 ∧
    (((0 : ℚ) ≤ clamp_to_range 3 (0, 10) ∧ clamp_to_range 3 (0, 10) ≤ 10 ∧
        ((0 : ℚ) ≤ 3 → (3 : ℚ) ≤ 10 → clamp_to_range 3 (0, 10) = 3)) ∧
      clamp_to_range 3 (10, 0) = clamp_to_range 3 (0, 10)) :=
  ⟨by norm_num, C4_clamp_to_range_normalizes 3 0 10 (by norm_num)⟩

/-- C3: before any resize interaction, the side panel rectangle starts at
the available area's min corner, spans the available area's full vertical
extent, and its width is the persisted rectangle's width when an entry for
this identity exists (else the configured default width), clamped to the
width range. -/
theorem C3_side_panel_base_rect (p : SidePanel) (ctx : Ctx) :
    (p.baseRect ctx).min = ctx.available_rect.min ∧
    (p.baseRect ctx).max.y = ctx.available_rect.max.y ∧
    (p.baseRect ctx).width =
      clamp_to_range
        (match ctx.memory.id_data p.id with
         | some state => state.rect.width
         | none => p.default_width) p.width_range := by
  refine ⟨rfl, rfl, ?_⟩
  simp [SidePanel.baseRect, Rect.width]

/-- C7: the top panel rectangle starts at the available area's min corner,
spans its full width, and its height is at most the max height (the
explicit one if set, else the style's standard interactive height) and at
most the available height; concretely, max height 30 on a fresh 800×600
frame gives the rectangle x ∈ [0, 800], y ∈ [0, 30]. -/
theorem C7_top_panel_rect (t : TopPanel) (ctx : Ctx) :
    (t.panelRect ctx).min = ctx.available_rect.min ∧
    (t.panelRect ctx).max.x = ctx.available_rect.max.x ∧
    (t.panelRect ctx).max.y - (t.panelRect ctx).min.y ≤
      t.max_height.getD ctx.style.interact_size_y ∧
    (t.panelRect ctx).max.y - (t.panelRect ctx).min.y ≤
      ctx.available_rect.max.y - ctx.available_rect.min.y ∧
    topPanel30.panelRect exCtx = ⟨⟨0, 0⟩, ⟨800, 30⟩⟩ := by
  refine ⟨rfl, rfl, ?_, ?_, ?_⟩
  · simp only [TopPanel.panelRect]
    have := min_le_right ctx.available_rect.max.y
      (ctx.available_rect.min.y + t.max_height.getD ctx.style.interact_size_y)
    simp only [Ctx.available_rect] at *
    linarith
  · simp only [TopPanel.panelRect]
    have := min_le_left ctx.available_rect.max.y
      (ctx.available_rect.min.y + t.max_height.getD ctx.style.interact_size_y)
    simp only [Ctx.available_rect] at *
    linarith
  · simp [topPanel30, TopPanel.panelRect, exCtx, exScreen, exStyle,
      Ctx.available_rect]
    norm_num

/-- C10: a central panel call leaves the persisted store, the drag-owner
slot, the cursor output, the painter and the input untouched; its only
effect on shared frame state is reporting its consumed rectangle through
the central allocation. -/
theorem C10_central_frame_effects (c : CentralPanel) (ctx : Ctx)
    (f : Rect → Rect) :
    (c.show ctx f).1.memory = ctx.memory ∧
    (c.show ctx f).1.output = ctx.output ∧
    (c.show ctx f).1.painter = ctx.painter ∧
    (c.show ctx f).1.input = ctx.input ∧
    (c.show ctx f).1.frame_state =
      ctx.frame_state.allocate_central_panel ((c.show ctx f).2) :=
  ⟨rfl, rfl, rfl, rfl, rfl⟩

/-- C6: a central panel hands the full current available area to its
content layer; end-to-end on a fresh 800×600 frame, a default left side
panel (default width 200) occupies x ∈ [0, 200], y ∈ [0, 600], and a
central panel shown after it occupies x ∈ [200, 800], y ∈ [0, 600]. -/
theorem C6_central_panel_rect (c : CentralPanel) (ctx : Ctx)
    (f : Rect → Rect) :
    (c.show ctx f).2 = f ctx.available_rect ∧
    exSideStep.2 = ⟨⟨0, 0⟩, ⟨200, 600⟩⟩ ∧
    exCentralStep.2 = ⟨⟨200, 0⟩, ⟨800, 600⟩⟩ := by
  refine ⟨rfl, ?_, ?_⟩
  · simp [exSideStep, exCtx, exStyle, exMemory, exScreen, exPanel,
      SidePanel.left, SidePanel.show, SidePanel.panelRect, SidePanel.baseRect,
      Ctx.available_rect, clamp_to_range, rust_clamp, f32_INFINITY]
    norm_num
  · simp [exCentralStep, exSideStep, exCtx, exStyle, exMemory, exScreen,
      exPanel, SidePanel.left, SidePanel.show, SidePanel.panelRect,
      SidePanel.baseRect, Ctx.available_rect, clamp_to_range, rust_clamp,
      f32_INFINITY, CentralPanel.show, CentralPanel.default,
      FrameState.allocate_left_panel, FrameState.allocate_central_panel]
    norm_num

/-- C1: while a pointer is available, the panel is resizable, and this
panel's resize identity owns the drag slot with the button down, the
panel rectangle keeps the available area's left edge, its width becomes
`pointer.x - rect.left` clamped to the width range, and its right edge is
`left + width` for that frame. -/
theorem C1_drag_sets_width (p : SidePanel) (ctx : Ctx) (pointer : Pos2)
    (hres : p.resizable = true)
    (hptr : ctx.input.pointer.latest_pos = some pointer)
    (hdrag : ctx.memory.interaction.drag_id = some p.resize_id)
    (_hdown : ctx.input.pointer.any_down = true) :
    (p.panelRect ctx).min.x = ctx.available_rect.min.x ∧
    (p.panelRect ctx).max.x = ctx.available_rect.min.x +
      clamp_to_range (pointer.x - ctx.available_rect.min.x) p.width_range ∧
    (p.panelRect ctx).width =
      clamp_to_range (pointer.x - ctx.available_rect.min.x) p.width_range := by
  have hrez := is_resizing_of_owner p ctx pointer hres hptr hdrag
  refine ⟨?_, ?_, ?_⟩ <;>
    simp [SidePanel.panelRect, hres, hptr, hrez, SidePanel.baseRect,
      Rect.left, Rect.width, Ctx.available_rect]

/-- Witness for C1: on a fresh 800×600 frame with the drag owned by the
panel's resize identity, pointer at x = 250 yields width 250 and pointer
at x = 10 yields width 96 (clamped into `96..=f32::INFINITY`). -/
theorem C1_witness :
    (exCtxDrag 250).memory.interaction.drag_id = some exPanel.resize_id ∧
    (exPanel.panelRect (exCtxDrag 250)).max.x =
      (exCtxDrag 250).available_rect.min.x +
        clamp_to_range ((250 : ℚ) - (exCtxDrag 250).available_rect.min.x)
          exPanel.width_range ∧
    (exPanel.panelRect (exCtxDrag 250)).width = 250 ∧
    (exPanel.panelRect (exCtxDrag 10)).width = 96 := by
  have h250 := C1_drag_sets_width exPanel (exCtxDrag 250) ⟨250, 300⟩
    rfl rfl rfl rfl
  have h10 := C1_drag_sets_width exPanel (exCtxDrag 10) ⟨10, 300⟩
    rfl rfl rfl rfl
  refine ⟨rfl, h250.2.1, ?_, ?_⟩
  · rw [h250.2.2]
    simp [exCtxDrag, exScreen, exPanel, SidePanel.left, Ctx.available_rect,
      clamp_to_range, rust_clamp, f32_INFINITY]
    norm_num
  · rw [h10.2.2]
    simp [exCtxDrag, exScreen, exPanel, SidePanel.left, Ctx.available_rect,
      clamp_to_range, rust_clamp, f32_INFINITY]
    norm_num

set_option maxRecDepth 4000 in
/-- C2 counterexample: in the very frame of the press that starts A's
drag (a button just pressed and down), A's show installs A's resize
identity in the drag slot; B's show later in the same frame — with B's
right edge under the pointer — overwrites the slot with B's resize
identity even though A's drag is still active. -/
theorem C2_counterexample :
    stepA.1.memory.interaction.drag_id = some panelA.resize_id ∧
    stepA.1.input.pointer.any_down = true ∧
    panelA.id ≠ panelB.id ∧
    stepB.1.memory.interaction.drag_id = some panelB.resize_id ∧
    panelB.resize_id ≠ panelA.resize_id := by
  refine ⟨?_, rfl, by decide, ?_, by decide⟩
  · simp [stepA, panelA, exCtxPress, exStyle, exMemory, exScreen,
      SidePanel.left, SidePanel.show, SidePanel.drag_id_after,
      SidePanel.resize_hover, SidePanel.resize_id, SidePanel.baseRect,
      Rect.y_range_contains, Rect.right, Ctx.available_rect,
      clamp_to_range, rust_clamp, f32_INFINITY]
    norm_num
  · simp [stepB, stepA, panelA, panelB, exCtxPress, exStyle, exMemory,
      exScreen, SidePanel.left, SidePanel.set_width_range, SidePanel.show,
      SidePanel.drag_id_after, SidePanel.resize_hover, SidePanel.is_resizing,
      SidePanel.panelRect, SidePanel.baseRect, SidePanel.resize_id,
      SidePanel.cursor_after, SidePanel.painter_after, Rect.y_range_contains,
      Rect.right, Rect.left, Rect.width, Ctx.available_rect, clamp_to_range,
      rust_clamp, f32_INFINITY, insertIdData, FrameState.allocate_left_panel]
    norm_num

/-- C2 amended: in any frame without a fresh press event (`any_pressed`
false — the button merely remains held down, as it is in every frame of a
drag gesture after the starting press), no side panel's show call changes
the drag-owner slot, however it is hovered; so panel B can never overwrite
panel A's active drag outside the press frame itself. -/
theorem C2_amended_no_overwrite (p : SidePanel) (ctx : Ctx)
    (f : Rect → Rect) (d : Id)
    (hdrag : ctx.memory.interaction.drag_id = some d)
    (hpress : ctx.input.pointer.any_pressed = false) :
    (p.show ctx f).1.memory.interaction.drag_id = some d := by
  have hkeep : p.drag_id_after ctx = ctx.memory.interaction.drag_id := by
    unfold SidePanel.drag_id_after
    cases ctx.input.pointer.latest_pos <;> simp [hpress]
  simp [SidePanel.show, hkeep, hdrag]

/-- Witness for the amended C2: in a mid-drag frame (button down, no fresh
press) owned by `exPanel`'s resize identity, showing panel B — whose zero
width puts its right edge exactly under the pointer — leaves the drag slot
with `exPanel`'s resize identity. -/
theorem C2_witness :
    (exCtxDrag 250).memory.interaction.drag_id = some exPanel.resize_id ∧
    (exCtxDrag 250).input.pointer.any_pressed = false ∧
    (panelB.show (exCtxDrag 250) (fun r => r)).1.memory.interaction.drag_id =
      some exPanel.resize_id :=
  ⟨rfl, rfl,
    C2_amended_no_overwrite panelB (exCtxDrag 250) (fun r => r)
      exPanel.resize_id rfl rfl⟩

/-- C8: for a resizable side panel in a frame with no pointer position,
the hover/drag logic is skipped: the drag slot, the cursor icon and the
painter are unchanged, and the final panel rectangle is exactly the base
(persisted-or-default, clamped) rectangle. -/
theorem C8_no_pointer_skips_resize (p : SidePanel) (ctx : Ctx)
    (f : Rect → Rect)
    (_hres : p.resizable = true)
    (hptr : ctx.input.pointer.latest_pos = none) :
    (p.show ctx f).1.memory.interaction.drag_id =
      ctx.memory.interaction.drag_id ∧
    (p.show ctx f).1.output.cursor_icon = ctx.output.cursor_icon ∧
    (p.show ctx f).1.painter = ctx.painter ∧
    p.panelRect ctx = p.baseRect ctx := by
  have hhov : p.resize_hover ctx = false := by
    simp [SidePanel.resize_hover, hptr]
  have hrez : p.is_resizing ctx = false := by
    simp [SidePanel.is_resizing, hptr]
  have hkeep : p.drag_id_after ctx = ctx.memory.interaction.drag_id := by
    unfold SidePanel.drag_id_after
    simp [hptr]
  refine ⟨?_, ?_, ?_, panelRect_of_not_resizing p ctx hrez⟩
  · simp [SidePanel.show, hkeep]
  · simp [SidePanel.show, SidePanel.cursor_after, hhov, hrez]
  · simp [SidePanel.show, SidePanel.painter_after, hhov, hrez]

/-- Witness for C8: the default side panel on the fresh pointer-less
800×600 frame. -/
theorem C8_witness :
    exPanel.resizable = true ∧
    exCtx.input.pointer.latest_pos = none ∧
    ((exPanel.show exCtx (fun r => r)).1.memory.interaction.drag_id =
        exCtx.memory.interaction.drag_id ∧
      (exPanel.show exCtx (fun r => r)).1.output.cursor_icon =
        exCtx.output.cursor_icon ∧
      (exPanel.show exCtx (fun r => r)).1.painter = exCtx.painter ∧
      exPanel.panelRect exCtx = exPanel.baseRect exCtx) :=
  ⟨rfl, rfl, C8_no_pointer_skips_resize exPanel exCtx (fun r => r) rfl rfl⟩

/-- C9: a non-resizable side panel never touches the drag slot, the cursor
icon or the painter, whatever the pointer state, and its rectangle is the
base rectangle whose width is the persisted-or-default width clamped to
the width range — independent of the pointer. -/
theorem C9_not_resizable_inert (p : SidePanel) (ctx : Ctx)
    (f : Rect → Rect)
    (hres : p.resizable = false) :
    (p.show ctx f).1.memory.interaction.drag_id =
      ctx.memory.interaction.drag_id ∧
    (p.show ctx f).1.output.cursor_icon = ctx.output.cursor_icon ∧
    (p.show ctx f).1.painter = ctx.painter ∧
    p.panelRect ctx = p.baseRect ctx ∧
    (p.panelRect ctx).width =
      clamp_to_range
        (match ctx.memory.id_data p.id with
         | some state => state.rect.width
         | none => p.default_width) p.width_range := by
  have hhov : p.resize_hover ctx = false := by
    simp [SidePanel.resize_hover, hres]
  have hrez : p.is_resizing ctx = false := by
    simp [SidePanel.is_resizing, hres]
  have hkeep : p.drag_id_after ctx = ctx.memory.interaction.drag_id := by
    unfold SidePanel.drag_id_after
    simp [hres]
  have hbase := panelRect_of_not_resizing p ctx hrez
  refine ⟨?_, ?_, ?_, hbase, ?_⟩
  · simp [SidePanel.show, hkeep]
  · simp [SidePanel.show, SidePanel.cursor_after, hhov, hrez]
  · simp [SidePanel.show, SidePanel.painter_after, hhov, hrez]
  · rw [hbase]
    simp [SidePanel.baseRect, Rect.width]

/-- Witness for C9: a non-resizable default side panel in a mid-drag frame
with the pointer at (250, 300): the rectangle stays at the default width
(200, clamped into `96..=f32::INFINITY`). -/
theorem C9_witness :
    (exPanel.set_resizable false).resizable = false ∧
    (((exPanel.set_resizable false).show (exCtxDrag 250)
          (fun r => r)).1.memory.interaction.drag_id =
        (exCtxDrag 250).memory.interaction.drag_id ∧
      ((exPanel.set_resizable false).panelRect (exCtxDrag 250)).width =
        clamp_to_range
          (match (exCtxDrag 250).memory.id_data
              (exPanel.set_resizable false).id with
           | some state => state.rect.width
           | none => (exPanel.set_resizable false).default_width)
          (exPanel.set_resizable false).width_range) := by
  have h := C9_not_resizable_inert (exPanel.set_resizable false)
    (exCtxDrag 250) (fun r => r) rfl
  exact ⟨rfl, h.1, h.2.2.2.2⟩

/-- C5: every side panel show call persists the actually consumed
rectangle under its identity (unconditionally); and a panel shown in a
second frame with the same identity and width range, the persisted entry
untouched in between, no resize interaction in the second frame
(`is_resizing` false there), and the consumed width inside the
(normalized) width range, has exactly the width persisted from the first
frame. -/
theorem C5_persisted_width_roundtrip :
    (∀ (p : SidePanel) (ctx : Ctx) (f : Rect → Rect),
        (p.show ctx f).1.memory.id_data p.id = some ⟨(p.show ctx f).2⟩) ∧
    (∀ (p q : SidePanel) (ctx ctx2 : Ctx) (f : Rect → Rect),
        q.id = p.id → q.width_range = p.width_range →
        ctx2.memory.id_data p.id = (p.show ctx f).1.memory.id_data p.id →
        min p.width_range.1 p.width_range.2 ≤ ((p.show ctx f).2).width →
        ((p.show ctx f).2).width ≤ max p.width_range.1 p.width_range.2 →
        q.is_resizing ctx2 = false →
        (q.panelRect ctx2).width = ((p.show ctx f).2).width) := by
  have hins : ∀ (p : SidePanel) (ctx : Ctx) (f : Rect → Rect),
      (p.show ctx f).1.memory.id_data p.id = some ⟨(p.show ctx f).2⟩ := by
    intro p ctx f
    simp [SidePanel.show, insertIdData]
  refine ⟨hins, ?_⟩
  intro p q ctx ctx2 f hid hwr hmem hlo hhi hrez2
  rw [panelRect_of_not_resizing q ctx2 hrez2]
  have hlook : ctx2.memory.id_data q.id = some ⟨(p.show ctx f).2⟩ := by
    rw [hid, hmem, hins]
  simp only [SidePanel.baseRect, Rect.width, Ctx.available_rect, hlook, hwr]
  rw [add_sub_cancel_left]
  exact clamp_to_range_eq_self _ _ hlo hhi

/-- Witness for C5: `exPanel` shown on the fresh pointer-less 800×600
frame consumes width 200 (inside `96..=f32::INFINITY`) and persists it; a
second frame carrying the resulting store, with the pointer present but
idle at (500, 300) (no button pressed or down, no active drag, so not
resizing), reproduces width 200. -/
theorem C5_witness :
    exSideStep.1.memory.id_data exPanel.id = some ⟨exSideStep.2⟩ ∧
    exPanel.is_resizing exCtx2 = false ∧
    (exPanel.panelRect exCtx2).width = exSideStep.2.width ∧
    exSideStep.2.width = 200 := by
  have hw : ((exPanel.show exCtx (fun r => r)).2).width = 200 := by
    simp [exCtx, exStyle, exMemory, exScreen, exPanel,
      SidePanel.left, SidePanel.show, SidePanel.panelRect,
      SidePanel.baseRect, Ctx.available_rect, clamp_to_range, rust_clamp,
      f32_INFINITY, Rect.width]
    norm_num
  have hrez2 : exPanel.is_resizing exCtx2 = false := by
    simp [SidePanel.is_resizing, SidePanel.drag_id_after, exCtx2,
      exSideStep, exCtx, exMemory, SidePanel.show]
  refine ⟨C5_persisted_width_roundtrip.1 exPanel exCtx (fun r => r),
    hrez2, ?_, hw⟩
  exact C5_persisted_width_roundtrip.2 exPanel exPanel exCtx exCtx2
    (fun r => r) rfl rfl rfl
    (by rw [hw]; simp [exPanel, SidePanel.left, f32_INFINITY]; norm_num)
    (by rw [hw]; simp [exPanel, SidePanel.left, f32_INFINITY]; norm_num)
    hrez2

end Egui
